import Mathlib

/-!
Shallow embedding of pyoptical.py (pycrsltd), the serial driver for the CRS
OptiCal photometer.

The serial port is modelled as an explicit state: a queue of byte-list
responses (one queue entry per read call, holding exactly the bytes that
arrive before the timeout, so a short or empty entry models a timeout on
that read) together with the trace of bytes written so far.  Bytes are
naturals.  Python exceptions are modelled with the error sum type OptErr;
every driver operation returns an Except paired with the port state reached
at the moment of return, so the bytes written before an exception remain
observable.  Python float arithmetic in the measurement conversion is
idealised as exact rational arithmetic.
-/

/-- Decidable equality for Except results, so concrete runs of the model can
be settled by decide. -/
instance {ε α : Type} [DecidableEq ε] [DecidableEq α] : DecidableEq (Except ε α) := fun a b =>
  match a, b with
  | .error e, .error e' =>
    if h : e = e' then .isTrue (congrArg Except.error h)
    else .isFalse (fun hc => h (by injection hc))
  | .ok v, .ok v' =>
    if h : v = v' then .isTrue (congrArg Except.ok h)
    else .isFalse (fun hc => h (by injection hc))
  | .error _, .ok _ => .isFalse (fun hc => Except.noConfusion hc)
  | .ok _, .error _ => .isFalse (fun hc => Except.noConfusion hc)

/-- ACK byte 0x06 (module-level constant ACK in pyoptical.py). -/
def ACK : Nat := 6

/-- NACK byte 0x15 (module-level constant NACK in pyoptical.py). -/
def NACK : Nat := 21

/-- The Python exceptions the driver can raise: the three OptiCalException
classes of pyoptical.py plus the builtin exceptions its code can hit
(unassigned local, empty hex literal, short-list indexing, zero division). -/
inductive OptErr where
  | TimeoutException : String → OptErr
  | NACKException : String → OptErr
  | OptiCalException : String → OptErr
  | UnboundLocalError : String → OptErr
  | ValueError : String → OptErr
  | IndexError : String → OptErr
  | ZeroDivisionError : String → OptErr
  deriving Repr, DecidableEq

/-- Model of Python int(s, 16) where s is the hex encoding of a byte list:
big-endian accumulation over the bytes; Python raises ValueError on the
empty string, modelled as none. -/
def int_of_hex_bytes (bs : List Nat) : Option Nat :=
  match bs with
  | [] => none
  | _ :: _ => some (bs.foldl (fun acc b => acc * 256 + b) 0)

/-- to_int from pyoptical.py: list_of_bytes.reverse() reverses the caller's
list in place, then the reversed bytes are joined, hex encoded and parsed
base 16.  The in-place mutation is modelled by returning both the parsed
value and the post-call state of the caller's list. -/
def to_int (list_of_bytes : List Nat) : Option Nat × List Nat :=
  (int_of_hex_bytes list_of_bytes.reverse, list_of_bytes.reverse)

/-- The serial port (self.phot): the queue of pending read results and the
trace of bytes written so far. -/
structure PortState where
  responses : List (List Nat)
  written : List Nat
  deriving Repr, DecidableEq

/-- self.phot.write(b): append one byte to the write trace. -/
def portWrite (p : PortState) (b : Nat) : PortState :=
  ⟨p.responses, p.written ++ [b]⟩

/-- self.phot.read(n): return the bytes that arrive before the timeout (at
most n), consuming the next queued response; an exhausted queue reads
nothing (a timeout). -/
def portRead (p : PortState) (n : Nat) : List Nat × PortState :=
  match p.responses with
  | [] => ([], p)
  | r :: rs => (r.take n, ⟨rs, p.written⟩)

/-- _check_return from pyoptical.py: an empty read raises TimeoutException,
a NACK byte anywhere in the read raises NACKException. -/
def _check_return (ret : List Nat) (description : String) : Except OptErr Unit :=
  if ret = [] then .error (.TimeoutException description)
  else if NACK ∈ ret then .error (.NACKException description)
  else .ok ()

/-- _send_command from pyoptical.py: write the command byte, read one byte,
check it. -/
def _send_command (p : PortState) (command : Nat) (description : String) :
    Except OptErr Unit × PortState :=
  let p1 := portWrite p command
  let rp := portRead p1 1
  (_check_return rp.1 description, rp.2)

/-- _read_eeprom_single from pyoptical.py: write the single command byte
128 + address, read 2 bytes, check them, return the first byte (ret[0];
indexing an empty string would raise IndexError, but _check_return already
rejects the empty read). -/
def _read_eeprom_single (p : PortState) (address : Nat) :
    Except OptErr Nat × PortState :=
  let p1 := portWrite p (128 + address)
  let rp := portRead p1 2
  let description := "reading eeprom at address " ++ toString address
  match _check_return rp.1 description with
  | .error e => (.error e, rp.2)
  | .ok _ =>
    match rp.1 with
    | [] => (.error (.IndexError "string index out of range"), rp.2)
    | b :: _ => (.ok b, rp.2)

/-- The loop body of _read_eeprom: issue _read_eeprom_single for each
address in the list in order, collecting the bytes; the first failure
aborts the loop with that error. -/
def readEepromLoop (p : PortState) (addrs : List Nat) :
    Except OptErr (List Nat) × PortState :=
  match addrs with
  | [] => (.ok [], p)
  | a :: rest =>
    match _read_eeprom_single p a with
    | (.error e, p1) => (.error e, p1)
    | (.ok b, p1) =>
      match readEepromLoop p1 rest with
      | (.error e, p2) => (.error e, p2)
      | (.ok bs, p2) => (.ok (b :: bs), p2)

/-- _read_eeprom from pyoptical.py: read addresses start..stop inclusive
(Python range(start, stop+1)). -/
def _read_eeprom (p : PortState) (start stop : Nat) :
    Except OptErr (List Nat) × PortState :=
  readEepromLoop p (List.range' start (stop + 1 - start))

/-- to_int applied to a freshly read byte list, with the Python ValueError
on an empty hex literal surfaced as an error. -/
def toIntChecked (bs : List Nat) : Except OptErr Nat :=
  match (to_int bs).1 with
  | some v => .ok v
  | none => .error (.ValueError "invalid literal for int with base 16")

/-- The five reference constants populated by _read_ref_defs. -/
structure RefDefs where
  V_ref : Nat
  Z_count : Nat
  R_feed : Nat
  R_gain : Nat
  K_cal : Nat
  deriving Repr, DecidableEq

/-- _read_ref_defs from pyoptical.py: read the five eeprom ranges
(16,19), (32,35), (48,51), (64,67), (96,99), in that order, converting
each with to_int. -/
def _read_ref_defs (p : PortState) : Except OptErr RefDefs × PortState :=
  match _read_eeprom p 16 19 with
  | (.error e, p1) => (.error e, p1)
  | (.ok bs1, p1) =>
    match toIntChecked bs1 with
    | .error e => (.error e, p1)
    | .ok vref =>
      match _read_eeprom p1 32 35 with
      | (.error e, p2) => (.error e, p2)
      | (.ok bs2, p2) =>
        match toIntChecked bs2 with
        | .error e => (.error e, p2)
        | .ok zcount =>
          match _read_eeprom p2 48 51 with
          | (.error e, p3) => (.error e, p3)
          | (.ok bs3, p3) =>
            match toIntChecked bs3 with
            | .error e => (.error e, p3)
            | .ok rfeed =>
              match _read_eeprom p3 64 67 with
              | (.error e, p4) => (.error e, p4)
              | (.ok bs4, p4) =>
                match toIntChecked bs4 with
                | .error e => (.error e, p4)
                | .ok rgain =>
                  match _read_eeprom p4 96 99 with
                  | (.error e, p5) => (.error e, p5)
                  | (.ok bs5, p5) =>
                    match toIntChecked bs5 with
                    | .error e => (.error e, p5)
                    | .ok kcal => (.ok ⟨vref, zcount, rfeed, rgain, kcal⟩, p5)

/-- The driver object: the mode string and the five cached calibration
constants, as set by a completed __init__. -/
structure OptiCal where
  mode : String
  V_ref : Nat
  Z_count : Nat
  R_feed : Nat
  R_gain : Nat
  K_cal : Nat
  deriving Repr, DecidableEq

/-- OptiCal.__init__ after serial.Serial has opened the port (the port is
the given state): send calibrate 0x43, read the five reference constants,
then dispatch on the mode string; an unsupported mode raises
OptiCalException only after those exchanges.  The mode comparisons use
Python is on interned literals, modelled as string equality. -/
def OptiCal.construct (mode : String) (p : PortState) :
    Except OptErr OptiCal × PortState :=
  match _send_command p 67 "calibrate" with
  | (.error e, p1) => (.error e, p1)
  | (.ok _, p1) =>
    match _read_ref_defs p1 with
    | (.error e, p2) => (.error e, p2)
    | (.ok refs, p2) =>
      if mode = "current" then
        match _send_command p2 73 "set current mode" with
        | (.error e, p3) => (.error e, p3)
        | (.ok _, p3) =>
          (.ok ⟨"current", refs.V_ref, refs.Z_count, refs.R_feed, refs.R_gain, refs.K_cal⟩, p3)
      else if mode = "voltage" then
        match _send_command p2 86 "set voltage mode" with
        | (.error e, p3) => (.error e, p3)
        | (.ok _, p3) =>
          (.ok ⟨"voltage", refs.V_ref, refs.Z_count, refs.R_feed, refs.R_gain, refs.K_cal⟩, p3)
      else
        (.error (.OptiCalException
          ("Mode: " ++ mode ++ " is not supported by OptiCal, either use current(default) or voltage")), p2)

/-- _read_adc from pyoptical.py: write 0x4C, read 4 bytes, check them,
drop the trailing byte (ret[:-1]), rebuild the value from ret[0..2] with
to_int (indexing raises IndexError when fewer than 3 bytes remain), and
return adc - Z_count - 524288.  The two debug print statements only write
to stdout and are not modelled. -/
def _read_adc (st : OptiCal) (p : PortState) : Except OptErr Int × PortState :=
  let p1 := portWrite p 76
  let rp := portRead p1 4
  match _check_return rp.1 "reading adc value" with
  | .error e => (.error e, rp.2)
  | .ok _ =>
    match rp.1.dropLast with
    | r0 :: r1 :: r2 :: _ =>
      match toIntChecked [r0, r1, r2] with
      | .error e => (.error e, rp.2)
      | .ok adc => (.ok ((adc : Int) - (st.Z_count : Int) - 524288), rp.2)
    | _ => (.error (.IndexError "string index out of range"), rp.2)

/-- _get_measurement from pyoptical.py, floats idealised as rationals.
The local variable denominator is assigned only under the mode is current
branch, yet the final return divides by it in every mode, so in voltage
mode the division raises UnboundLocalError; a zero denominator would raise
ZeroDivisionError. -/
def _get_measurement (st : OptiCal) (p : PortState) : Except OptErr ℚ × PortState :=
  match _read_adc st p with
  | (.error e, p1) => (.error e, p1)
  | (.ok adc, p1) =>
    let numerator : ℚ := ((adc : ℚ) / 524288) * (st.V_ref : ℚ) * (1 / 1000000)
    if st.mode = "current" then
      let denominator : ℚ := ((st.R_feed : ℚ) * (st.K_cal : ℚ)) * (1 / 1000000000000000)
      if denominator = 0 then (.error (.ZeroDivisionError "float division"), p1)
      else (.ok (numerator / denominator), p1)
    else
      (.error (.UnboundLocalError "denominator"), p1)

/-- get_luminance from pyoptical.py: only available in current mode. -/
def get_luminance (st : OptiCal) (p : PortState) : Except OptErr ℚ × PortState :=
  if st.mode ≠ "current" then
    (.error (.OptiCalException "get_luminance() is only available in current mode"), p)
  else _get_measurement st p

/-- get_voltage from pyoptical.py: only available in voltage mode. -/
def get_voltage (st : OptiCal) (p : PortState) : Except OptErr ℚ × PortState :=
  if st.mode ≠ "voltage" then
    (.error (.OptiCalException "get_voltage() is only available in voltage mode"), p)
  else _get_measurement st p

/-- Spec-side definition (spec section 4.3): direct little-endian
accumulation, the sum of byte[i] * 2 ^ (8 * i) over the bytes as
received. -/
def littleEndianSum : List Nat → Nat
  | [] => 0
  | b :: bs => b + 256 * littleEndianSum bs

/-- The twenty eeprom addresses of the five reference-constant ranges, in
the order _read_ref_defs reads them. -/
def refDefAddresses : List Nat :=
  List.range' 16 4 ++ List.range' 32 4 ++ List.range' 48 4 ++
    List.range' 64 4 ++ List.range' 96 4

/-- Response queue of a device whose eeprom holds f: ACK the calibrate
command, answer each reference-constant read with [f a, ACK], ACK the
mode-select command. -/
def initResponses (f : Nat → Nat) : List (List Nat) :=
  [[ACK]] ++ refDefAddresses.map (fun a => [f a, ACK]) ++ [[ACK]]

/-! ## Helper lemmas about the response validator and single eeprom reads -/

theorem check_return_nil (d : String) :
    _check_return [] d = .error (.TimeoutException d) := rfl

theorem check_return_no_nack (ret : List Nat) (d : String) (h1 : ret ≠ [])
    (h2 : NACK ∉ ret) : _check_return ret d = .ok () := by
  simp [_check_return, h1, h2]

theorem foldl_reverse_eq_littleEndianSum (bs : List Nat) :
    bs.reverse.foldl (fun acc b => acc * 256 + b) 0 = littleEndianSum bs := by
  induction bs with
  | nil => rfl
  | cons b bs ih =>
    simp [List.reverse_cons, List.foldl_append, littleEndianSum, ih]
    omega

theorem to_int_value_littleEndian (bs : List Nat) (h : bs ≠ []) :
    (to_int bs).1 = some (littleEndianSum bs) := by
  have hrev : bs.reverse ≠ [] := by simpa using h
  obtain ⟨c, cs, hc⟩ := List.exists_cons_of_ne_nil hrev
  calc (to_int bs).1
      = int_of_hex_bytes bs.reverse := rfl
    _ = int_of_hex_bytes (c :: cs) := by rw [hc]
    _ = some ((c :: cs).foldl (fun acc b => acc * 256 + b) 0) := rfl
    _ = some (bs.reverse.foldl (fun acc b => acc * 256 + b) 0) := by rw [hc]
    _ = some (littleEndianSum bs) := by rw [foldl_reverse_eq_littleEndianSum]

theorem toIntChecked_ok (bs : List Nat) (h : bs ≠ []) :
    toIntChecked bs = .ok (littleEndianSum bs) := by
  simp [toIntChecked, to_int_value_littleEndian bs h]

theorem read_eeprom_single_two (a b : Nat) (rest : List (List Nat)) (w : List Nat)
    (hb : b ≠ NACK) :
    _read_eeprom_single ⟨[b, ACK] :: rest, w⟩ a = (.ok b, ⟨rest, w ++ [128 + a]⟩) := by
  have hb' : b ≠ 21 := hb
  have hmem : NACK ∉ [b, ACK] := by
    simp [NACK, ACK]
    omega
  have hc : _check_return [b, ACK] ("reading eeprom at address " ++ toString a) = .ok () :=
    check_return_no_nack _ _ (by simp) hmem
  simp [_read_eeprom_single, portWrite, portRead, hc]

theorem read_eeprom_single_short (a b : Nat) (rest : List (List Nat)) (w : List Nat)
    (hb : b ≠ NACK) :
    _read_eeprom_single ⟨[b] :: rest, w⟩ a = (.ok b, ⟨rest, w ++ [128 + a]⟩) := by
  have hb' : b ≠ 21 := hb
  have hmem : NACK ∉ [b] := by
    simp [NACK]
    omega
  have hc : _check_return [b] ("reading eeprom at address " ++ toString a) = .ok () :=
    check_return_no_nack _ _ (by simp) hmem
  simp [_read_eeprom_single, portWrite, portRead, hc]

theorem read_eeprom_single_empty (a : Nat) (rest : List (List Nat)) (w : List Nat) :
    _read_eeprom_single ⟨[] :: rest, w⟩ a =
      (.error (.TimeoutException ("reading eeprom at address " ++ toString a)),
       ⟨rest, w ++ [128 + a]⟩) := by
  simp [_read_eeprom_single, portWrite, portRead, _check_return]

/-! ## Claim theorems, first batch -/

/-- Claim C7: the response validator raises TimeoutException exactly on the
empty response, raises NACKException exactly when the NACK byte 0x15 occurs
anywhere in the response, and otherwise succeeds, leaving the response to
the caller unchanged.  (_check_return is called after every command write
in _send_command, _read_eeprom_single and _read_adc.) -/
theorem check_return_classification (ret : List Nat) (desc : String) :
    (_check_return ret desc = .error (.TimeoutException desc) ↔ ret = []) ∧
    (_check_return ret desc = .error (.NACKException desc) ↔ NACK ∈ ret) ∧
    (_check_return ret desc = .ok () ↔ ret ≠ [] ∧ NACK ∉ ret) := by
  by_cases h1 : ret = []
  · subst h1
    simp [_check_return]
  · by_cases h2 : NACK ∈ ret
    · simp [_check_return, h1, h2]
    · simp [_check_return, h1, h2]

/-- Claim C10: to_int mutates its argument: the caller's list is reversed in
place by the call, and on [1, 2] the observed post-call list [2, 1] differs
from the original. -/
theorem to_int_reverses_argument :
    (∀ bs : List Nat, (to_int bs).2 = bs.reverse) ∧
    (to_int [1, 2]).2 = [2, 1] ∧ (to_int [1, 2]).2 ≠ [1, 2] :=
  ⟨fun _ => rfl, rfl, by decide⟩

/-- Claim C6 counterexample: on the empty byte sequence the little-endian
accumulation yields 0, but to_int parses the empty hex literal and raises
ValueError (modelled as none), so the two decodings disagree there. -/
theorem to_int_empty_cex :
    (to_int ([] : List Nat)).1 = none ∧
    (to_int ([] : List Nat)).1 ≠ some (littleEndianSum []) := by
  decide

/-- Claim C6 (amended): for every nonempty byte sequence, reverse-then-parse
as big-endian hex (to_int) agrees with the direct little-endian accumulation
sum of byte[i] * 2 ^ (8 * i) over the bytes as received. -/
theorem to_int_eq_littleEndianSum (bs : List Nat) (h : bs ≠ []) :
    (to_int bs).1 = some (littleEndianSum bs) :=
  to_int_value_littleEndian bs h

theorem to_int_eq_littleEndianSum_witness :
    (to_int [1, 0, 0, 0]).1 = some 1 ∧ (to_int [0, 1]).1 = some 256 := by
  constructor
  · rw [to_int_eq_littleEndianSum [1, 0, 0, 0] (by decide)]
    decide
  · rw [to_int_eq_littleEndianSum [0, 1] (by decide)]
    decide

/-- Claim C3 counterexample: a 1-byte response to the 2-byte eeprom read at
address 0 is not treated as a timeout: the single byte 7 is returned. -/
theorem short_read_not_timeout_cex :
    (_read_eeprom_single ⟨[[7]], []⟩ 0).1 = .ok 7 ∧
    (_read_eeprom_single ⟨[[7]], []⟩ 0).1 ≠
      .error (.TimeoutException "reading eeprom at address 0") := by
  decide

/-- Claim C3 (amended): only an empty response is treated as a timeout; a
response shorter than the expected 2 bytes but non-empty (and NACK-free)
passes validation and its first byte is returned by the eeprom read. -/
theorem short_read_first_byte_returned (a b : Nat) (rest : List (List Nat)) (w : List Nat) :
    (b ≠ NACK →
      _read_eeprom_single ⟨[b] :: rest, w⟩ a = (.ok b, ⟨rest, w ++ [128 + a]⟩)) ∧
    _read_eeprom_single ⟨[] :: rest, w⟩ a =
      (.error (.TimeoutException ("reading eeprom at address " ++ toString a)),
       ⟨rest, w ++ [128 + a]⟩) :=
  ⟨fun hb => read_eeprom_single_short a b rest w hb, read_eeprom_single_empty a rest w⟩

theorem short_read_first_byte_returned_witness :
    _read_eeprom_single ⟨[[9]], []⟩ 3 = (.ok 9, ⟨[], [131]⟩) ∧
    _read_eeprom_single ⟨[[]], []⟩ 3 =
      (.error (.TimeoutException "reading eeprom at address 3"), ⟨[], [131]⟩) :=
  ⟨(short_read_first_byte_returned 3 9 [] []).1 (by decide),
   (short_read_first_byte_returned 3 9 [] []).2⟩

/-- Claim C5 counterexample: at address 0 with response [0x15, ACK] the
uniform NACK scan rejects the response, so the first byte is not returned. -/
theorem eeprom_nack_data_byte_cex :
    (_read_eeprom_single ⟨[[NACK, ACK]], []⟩ 0).1 =
      .error (.NACKException "reading eeprom at address 0") ∧
    (_read_eeprom_single ⟨[[NACK, ACK]], []⟩ 0).1 ≠ .ok NACK := by
  decide

/-- Claim C5 (amended): for every address in 0..99, the eeprom read writes
exactly the single command byte 128 + address, reads 2 response bytes, and
when the response is [byte, ACK] with byte different from the NACK byte
0x15, returns that first byte, the second byte being discarded (a data byte
equal to 0x15 instead trips the uniform NACK validation). -/
theorem read_eeprom_single_sends_cmd_returns_first (a b : Nat) (rest : List (List Nat))
    (w : List Nat) (_ha : a ≤ 99) (hb : b ≠ NACK) :
    _read_eeprom_single ⟨[b, ACK] :: rest, w⟩ a = (.ok b, ⟨rest, w ++ [128 + a]⟩) :=
  read_eeprom_single_two a b rest w hb

theorem read_eeprom_single_sends_cmd_returns_first_witness :
    (99 : Nat) ≤ 99 ∧
    _read_eeprom_single ⟨[[42, ACK]], []⟩ 99 = (.ok 42, ⟨[], [227]⟩) :=
  ⟨by decide, read_eeprom_single_sends_cmd_returns_first 99 42 [] [] (by decide) (by decide)⟩

/-- Claim C1 evaluated at a failing input: a Ready driver in voltage mode,
given the NACK-free 4-byte ADC response [0, 0, 8, ACK], does not return the
numerator term: the measurement raises UnboundLocalError because the local
denominator is assigned only under the mode-is-current branch while the
final return divides by it in every mode. -/
theorem voltage_measurement_raises_unbound_local :
    get_voltage ⟨"voltage", 2271488, 0, 100000, 100000, 1000⟩ ⟨[[0, 0, 8, ACK]], []⟩ =
      (.error (.UnboundLocalError "denominator"), ⟨[], [76]⟩) := by
  rfl

/-- Claim C8: calling the accessor that does not match the constructed mode
(get_voltage in current mode, get_luminance in voltage mode) fails with the
mode-mismatch OptiCalException and writes nothing to the transport (the
port state is returned unchanged). -/
theorem wrong_accessor_config_error (st : OptiCal) (p : PortState) :
    (st.mode = "current" →
      get_voltage st p =
        (.error (.OptiCalException "get_voltage() is only available in voltage mode"), p)) ∧
    (st.mode = "voltage" →
      get_luminance st p =
        (.error (.OptiCalException "get_luminance() is only available in current mode"), p)) := by
  constructor
  · intro h
    have hne : st.mode ≠ "voltage" := by
      rw [h]
      decide
    simp [get_voltage, hne]
  · intro h
    have hne : st.mode ≠ "current" := by
      rw [h]
      decide
    simp [get_luminance, hne]

theorem wrong_accessor_config_error_witness :
    get_voltage ⟨"current", 1, 2, 3, 4, 5⟩ ⟨[], []⟩ =
      (.error (.OptiCalException "get_voltage() is only available in voltage mode"), ⟨[], []⟩) ∧
    get_luminance ⟨"voltage", 1, 2, 3, 4, 5⟩ ⟨[], []⟩ =
      (.error (.OptiCalException "get_luminance() is only available in current mode"), ⟨[], []⟩) :=
  ⟨(wrong_accessor_config_error ⟨"current", 1, 2, 3, 4, 5⟩ ⟨[], []⟩).1 rfl,
   (wrong_accessor_config_error ⟨"voltage", 1, 2, 3, 4, 5⟩ ⟨[], []⟩).2 rfl⟩

/-! ## Helper lemmas for range reads and initialization -/

theorem read_eeprom_16_19 (p : PortState) :
    _read_eeprom p 16 19 = readEepromLoop p [16, 17, 18, 19] := rfl

theorem read_eeprom_32_35 (p : PortState) :
    _read_eeprom p 32 35 = readEepromLoop p [32, 33, 34, 35] := rfl

theorem read_eeprom_48_51 (p : PortState) :
    _read_eeprom p 48 51 = readEepromLoop p [48, 49, 50, 51] := rfl

theorem read_eeprom_64_67 (p : PortState) :
    _read_eeprom p 64 67 = readEepromLoop p [64, 65, 66, 67] := rfl

theorem read_eeprom_96_99 (p : PortState) :
    _read_eeprom p 96 99 = readEepromLoop p [96, 97, 98, 99] := rfl

theorem refDefAddresses_eq :
    refDefAddresses = [16, 17, 18, 19, 32, 33, 34, 35, 48, 49, 50, 51,
      64, 65, 66, 67, 96, 97, 98, 99] := rfl

theorem readEepromLoop_ok (addrs : List Nat) (f : Nat → Nat) (rest : List (List Nat)) :
    ∀ (w : List Nat), (∀ a ∈ addrs, f a ≠ NACK) →
    readEepromLoop ⟨addrs.map (fun a => [f a, ACK]) ++ rest, w⟩ addrs =
      (.ok (addrs.map f), ⟨rest, w ++ addrs.map (fun a => 128 + a)⟩) := by
  induction addrs with
  | nil =>
    intro w _
    simp [readEepromLoop]
  | cons a as ih =>
    intro w h
    have ha : f a ≠ NACK := h a (List.mem_cons_self a as)
    have hs : ∀ x ∈ as, f x ≠ NACK := fun x hx => h x (List.mem_cons_of_mem a hx)
    simp only [List.map_cons, List.cons_append, readEepromLoop,
      read_eeprom_single_two a (f a) (as.map (fun x => [f x, ACK]) ++ rest) w ha,
      ih (w ++ [128 + a]) hs]
    simp [List.append_assoc]

theorem send_command_ack (rest : List (List Nat)) (w : List Nat) (c : Nat) (d : String) :
    _send_command ⟨[ACK] :: rest, w⟩ c d = (.ok (), ⟨rest, w ++ [c]⟩) := by
  have hmem : NACK ∉ [ACK] := by
    simp [NACK, ACK]
  have hc : _check_return [ACK] d = .ok () :=
    check_return_no_nack _ _ (by simp) hmem
  simp [_send_command, portWrite, portRead, hc]

theorem read_ref_defs_ok (f : Nat → Nat) (rest : List (List Nat)) (w : List Nat)
    (h : ∀ a ∈ refDefAddresses, f a ≠ NACK) :
    _read_ref_defs ⟨refDefAddresses.map (fun a => [f a, ACK]) ++ rest, w⟩ =
      (.ok ⟨littleEndianSum [f 16, f 17, f 18, f 19],
            littleEndianSum [f 32, f 33, f 34, f 35],
            littleEndianSum [f 48, f 49, f 50, f 51],
            littleEndianSum [f 64, f 65, f 66, f 67],
            littleEndianSum [f 96, f 97, f 98, f 99]⟩,
       ⟨rest, w ++ refDefAddresses.map (fun a => 128 + a)⟩) := by
  have hsub : ∀ (L : List Nat), (∀ x ∈ L, x ∈ refDefAddresses) → ∀ a ∈ L, f a ≠ NACK :=
    fun L hL a ha => h a (hL a ha)
  have h1 := hsub [16, 17, 18, 19] (by decide)
  have h2 := hsub [32, 33, 34, 35] (by decide)
  have h3 := hsub [48, 49, 50, 51] (by decide)
  have h4 := hsub [64, 65, 66, 67] (by decide)
  have h5 := hsub [96, 97, 98, 99] (by decide)
  have hresp : refDefAddresses.map (fun a => [f a, ACK]) ++ rest =
      [16, 17, 18, 19].map (fun a => [f a, ACK]) ++
        ([32, 33, 34, 35].map (fun a => [f a, ACK]) ++
          ([48, 49, 50, 51].map (fun a => [f a, ACK]) ++
            ([64, 65, 66, 67].map (fun a => [f a, ACK]) ++
              ([96, 97, 98, 99].map (fun a => [f a, ACK]) ++ rest)))) := rfl
  have e1 := readEepromLoop_ok [16, 17, 18, 19] f
    ([32, 33, 34, 35].map (fun a => [f a, ACK]) ++
      ([48, 49, 50, 51].map (fun a => [f a, ACK]) ++
        ([64, 65, 66, 67].map (fun a => [f a, ACK]) ++
          ([96, 97, 98, 99].map (fun a => [f a, ACK]) ++ rest)))) w h1
  have e2 := readEepromLoop_ok [32, 33, 34, 35] f
    ([48, 49, 50, 51].map (fun a => [f a, ACK]) ++
      ([64, 65, 66, 67].map (fun a => [f a, ACK]) ++
        ([96, 97, 98, 99].map (fun a => [f a, ACK]) ++ rest)))
    (w ++ [16, 17, 18, 19].map (fun a => 128 + a)) h2
  have e3 := readEepromLoop_ok [48, 49, 50, 51] f
    ([64, 65, 66, 67].map (fun a => [f a, ACK]) ++
      ([96, 97, 98, 99].map (fun a => [f a, ACK]) ++ rest))
    ((w ++ [16, 17, 18, 19].map (fun a => 128 + a)) ++
      [32, 33, 34, 35].map (fun a => 128 + a)) h3
  have e4 := readEepromLoop_ok [64, 65, 66, 67] f
    ([96, 97, 98, 99].map (fun a => [f a, ACK]) ++ rest)
    (((w ++ [16, 17, 18, 19].map (fun a => 128 + a)) ++
      [32, 33, 34, 35].map (fun a => 128 + a)) ++
      [48, 49, 50, 51].map (fun a => 128 + a)) h4
  have e5 := readEepromLoop_ok [96, 97, 98, 99] f rest
    ((((w ++ [16, 17, 18, 19].map (fun a => 128 + a)) ++
      [32, 33, 34, 35].map (fun a => 128 + a)) ++
      [48, 49, 50, 51].map (fun a => 128 + a)) ++
      [64, 65, 66, 67].map (fun a => 128 + a)) h5
  have t1 := toIntChecked_ok ([16, 17, 18, 19].map f) (by simp)
  have t2 := toIntChecked_ok ([32, 33, 34, 35].map f) (by simp)
  have t3 := toIntChecked_ok ([48, 49, 50, 51].map f) (by simp)
  have t4 := toIntChecked_ok ([64, 65, 66, 67].map f) (by simp)
  have t5 := toIntChecked_ok ([96, 97, 98, 99].map f) (by simp)
  rw [hresp]
  simp only [_read_ref_defs, read_eeprom_16_19, read_eeprom_32_35, read_eeprom_48_51,
    read_eeprom_64_67, read_eeprom_96_99, e1, e2, e3, e4, e5, t1, t2, t3, t4, t5]
  simp [refDefAddresses_eq, List.append_assoc]

theorem construct_current_ok (f : Nat → Nat) (rest : List (List Nat))
    (h : ∀ a ∈ refDefAddresses, f a ≠ NACK) :
    OptiCal.construct "current" ⟨initResponses f ++ rest, []⟩ =
      (.ok ⟨"current", littleEndianSum [f 16, f 17, f 18, f 19],
            littleEndianSum [f 32, f 33, f 34, f 35],
            littleEndianSum [f 48, f 49, f 50, f 51],
            littleEndianSum [f 64, f 65, f 66, f 67],
            littleEndianSum [f 96, f 97, f 98, f 99]⟩,
       ⟨rest, 67 :: (refDefAddresses.map (fun a => 128 + a) ++ [73])⟩) := by
  have hresp : initResponses f ++ rest =
      [ACK] :: (refDefAddresses.map (fun a => [f a, ACK]) ++ ([ACK] :: rest)) := by
    simp [initResponses, List.append_assoc]
  have s1 := send_command_ack
    (refDefAddresses.map (fun a => [f a, ACK]) ++ ([ACK] :: rest)) [] 67 "calibrate"
  have rd := read_ref_defs_ok f ([ACK] :: rest) ([] ++ [67]) h
  have s2 := send_command_ack rest
    (([] ++ [67]) ++ refDefAddresses.map (fun a => 128 + a)) 73 "set current mode"
  rw [hresp]
  simp only [OptiCal.construct, s1, rd, s2]
  simp [List.append_assoc]

theorem construct_voltage_ok (f : Nat → Nat) (rest : List (List Nat))
    (h : ∀ a ∈ refDefAddresses, f a ≠ NACK) :
    OptiCal.construct "voltage" ⟨initResponses f ++ rest, []⟩ =
      (.ok ⟨"voltage", littleEndianSum [f 16, f 17, f 18, f 19],
            littleEndianSum [f 32, f 33, f 34, f 35],
            littleEndianSum [f 48, f 49, f 50, f 51],
            littleEndianSum [f 64, f 65, f 66, f 67],
            littleEndianSum [f 96, f 97, f 98, f 99]⟩,
       ⟨rest, 67 :: (refDefAddresses.map (fun a => 128 + a) ++ [86])⟩) := by
  have hresp : initResponses f ++ rest =
      [ACK] :: (refDefAddresses.map (fun a => [f a, ACK]) ++ ([ACK] :: rest)) := by
    simp [initResponses, List.append_assoc]
  have s1 := send_command_ack
    (refDefAddresses.map (fun a => [f a, ACK]) ++ ([ACK] :: rest)) [] 67 "calibrate"
  have rd := read_ref_defs_ok f ([ACK] :: rest) ([] ++ [67]) h
  have s2 := send_command_ack rest
    (([] ++ [67]) ++ refDefAddresses.map (fun a => 128 + a)) 86 "set voltage mode"
  rw [hresp]
  simp only [OptiCal.construct, s1, rd, s2]
  simp [List.append_assoc]

/-! ## Claim theorems, second batch -/

/-- Claim C4: on a 4-byte NACK-free response, _read_adc writes exactly the
command byte 0x4C, discards the last response byte, reconstructs the value
from the first three bytes least-significant-byte-first, and returns
rawValue - Z_count - 524288. -/
theorem read_adc_little_endian (st : OptiCal) (r0 r1 r2 r3 : Nat)
    (rest : List (List Nat)) (w : List Nat)
    (h0 : r0 ≠ NACK) (h1 : r1 ≠ NACK) (h2 : r2 ≠ NACK) (h3 : r3 ≠ NACK) :
    _read_adc st ⟨[r0, r1, r2, r3] :: rest, w⟩ =
      (.ok ((r0 : Int) + (r1 : Int) * 256 + (r2 : Int) * 65536 -
        (st.Z_count : Int) - 524288),
       ⟨rest, w ++ [76]⟩) := by
  have h0' : r0 ≠ 21 := h0
  have h1' : r1 ≠ 21 := h1
  have h2' : r2 ≠ 21 := h2
  have h3' : r3 ≠ 21 := h3
  have hmem : NACK ∉ [r0, r1, r2, r3] := by
    simp [NACK]
    omega
  have hc : _check_return [r0, r1, r2, r3] "reading adc value" = .ok () :=
    check_return_no_nack _ _ (by simp) hmem
  have hd : ([r0, r1, r2, r3] : List Nat).dropLast = [r0, r1, r2] := rfl
  have ht : ([r0, r1, r2, r3] : List Nat).take 4 = [r0, r1, r2, r3] := rfl
  have hti := toIntChecked_ok [r0, r1, r2] (by simp)
  have hval : ((littleEndianSum [r0, r1, r2] : Nat) : Int) =
      (r0 : Int) + (r1 : Int) * 256 + (r2 : Int) * 65536 := by
    push_cast [littleEndianSum]
    ring
  simp only [_read_adc, portWrite, portRead, ht, hc, hd, hti]
  simp [hval]

theorem read_adc_little_endian_witness :
    _read_adc ⟨"current", 0, 0, 0, 0, 0⟩ ⟨[[0, 0, 8, ACK]], []⟩ =
      (.ok 0, ⟨[], [76]⟩) := by
  have h := read_adc_little_endian ⟨"current", 0, 0, 0, 0, 0⟩ 0 0 8 6 [] []
    (by decide) (by decide) (by decide) (by decide)
  simpa [ACK] using h

/-- Claim C9: for every successfully constructed driver, the five
calibration constants are populated from the eeprom responses and the mode
is set; the constants are read exactly once, in the fixed order V_ref
(16..19), Z_count (32..35), R_feed (48..51), R_gain (64..67), K_cal
(96..99), as the write trace shows, and each address command occurs exactly
once in the trace.  Measurement calls take the driver state read-only in
this model, mirroring the source where no method after __init__ assigns any
of the constant attributes or the mode. -/
theorem construct_populates_constants_in_order (f : Nat → Nat)
    (rest : List (List Nat)) (h : ∀ a ∈ refDefAddresses, f a ≠ NACK) :
    (OptiCal.construct "current" ⟨initResponses f ++ rest, []⟩ =
      (.ok ⟨"current", littleEndianSum [f 16, f 17, f 18, f 19],
            littleEndianSum [f 32, f 33, f 34, f 35],
            littleEndianSum [f 48, f 49, f 50, f 51],
            littleEndianSum [f 64, f 65, f 66, f 67],
            littleEndianSum [f 96, f 97, f 98, f 99]⟩,
       ⟨rest, 67 :: (refDefAddresses.map (fun a => 128 + a) ++ [73])⟩)) ∧
    (OptiCal.construct "voltage" ⟨initResponses f ++ rest, []⟩ =
      (.ok ⟨"voltage", littleEndianSum [f 16, f 17, f 18, f 19],
            littleEndianSum [f 32, f 33, f 34, f 35],
            littleEndianSum [f 48, f 49, f 50, f 51],
            littleEndianSum [f 64, f 65, f 66, f 67],
            littleEndianSum [f 96, f 97, f 98, f 99]⟩,
       ⟨rest, 67 :: (refDefAddresses.map (fun a => 128 + a) ++ [86])⟩)) ∧
    (∀ a ∈ refDefAddresses,
      (refDefAddresses.map (fun x => 128 + x)).count (128 + a) = 1) :=
  ⟨construct_current_ok f rest h, construct_voltage_ok f rest h, by decide⟩

theorem construct_populates_constants_in_order_witness :
    OptiCal.construct "current" ⟨initResponses (fun _ => 1), []⟩ =
      (.ok ⟨"current", 16843009, 16843009, 16843009, 16843009, 16843009⟩,
       ⟨[], [67, 144, 145, 146, 147, 160, 161, 162, 163, 176, 177, 178, 179,
             192, 193, 194, 195, 224, 225, 226, 227, 73]⟩) := by
  have h := (construct_populates_constants_in_order (fun _ => 1) []
    (by intro a _; show (1 : Nat) ≠ NACK; decide)).1
  simpa [littleEndianSum, refDefAddresses_eq] using h

/-- Claim C2 counterexample: constructing with mode string foo against a
device that ACKs everything does raise the configuration error, but only
after 21 bytes (the calibrate command and the twenty eeprom read commands)
have been written to the transport, contradicting the claim that no byte is
written before the failure. -/
theorem construct_invalid_mode_writes_first_cex :
    (OptiCal.construct "foo" ⟨initResponses (fun _ => 0), []⟩).1 =
      .error (.OptiCalException
        "Mode: foo is not supported by OptiCal, either use current(default) or voltage") ∧
    (OptiCal.construct "foo" ⟨initResponses (fun _ => 0), []⟩).2.written =
      [67, 144, 145, 146, 147, 160, 161, 162, 163, 176, 177, 178, 179,
       192, 193, 194, 195, 224, 225, 226, 227] ∧
    (OptiCal.construct "foo" ⟨initResponses (fun _ => 0), []⟩).2.written ≠ [] := by
  decide

/-- Claim C2 (amended): constructing with a mode string that is neither
current nor voltage fails with the configuration error, but only after the
calibrate command and the twenty eeprom constant reads have been exchanged:
the calibrate byte 0x43 and all twenty command bytes 0x80 + address are
written to the transport before the error is raised. -/
theorem construct_invalid_mode_fails_after_io (mode : String) (f : Nat → Nat)
    (rest : List (List Nat)) (hm1 : mode ≠ "current") (hm2 : mode ≠ "voltage")
    (h : ∀ a ∈ refDefAddresses, f a ≠ NACK) :
    OptiCal.construct mode
        ⟨[ACK] :: (refDefAddresses.map (fun a => [f a, ACK]) ++ rest), []⟩ =
      (.error (.OptiCalException
        ("Mode: " ++ mode ++ " is not supported by OptiCal, either use current(default) or voltage")),
       ⟨rest, 67 :: refDefAddresses.map (fun a => 128 + a)⟩) := by
  have s1 := send_command_ack
    (refDefAddresses.map (fun a => [f a, ACK]) ++ rest) [] 67 "calibrate"
  have rd := read_ref_defs_ok f rest ([] ++ [67]) h
  simp only [OptiCal.construct, s1, rd]
  simp [hm1, hm2]

theorem construct_invalid_mode_fails_after_io_witness :
    OptiCal.construct "foo"
        ⟨[[6], [0, 6], [0, 6], [0, 6], [0, 6], [0, 6], [0, 6], [0, 6], [0, 6],
          [0, 6], [0, 6], [0, 6], [0, 6], [0, 6], [0, 6], [0, 6], [0, 6],
          [0, 6], [0, 6], [0, 6], [0, 6]], []⟩ =
      (.error (.OptiCalException
        "Mode: foo is not supported by OptiCal, either use current(default) or voltage"),
       ⟨[], [67, 144, 145, 146, 147, 160, 161, 162, 163, 176, 177, 178, 179,
             192, 193, 194, 195, 224, 225, 226, 227]⟩) := by
  have h := construct_invalid_mode_fails_after_io "foo" (fun _ => 0) []
    (by decide) (by decide) (by intro a _; show (0 : Nat) ≠ NACK; decide)
  simpa [refDefAddresses_eq, ACK] using h
